import Mathlib

/-!
Formal model of the STT-Compare backend (src/backend/main.py,
src/backend/providers/base_provider.py, deepgram_provider.py,
speechmatics_provider.py).

The Python code is a per-client session coordinator that fans one audio
stream out to two speech-to-text provider adapters and normalizes their
vendor events into one client-facing schema.  The embedding below is a
shallow, executable translation of that code:

  * Every adapter method in the source wraps its whole body in a
    try/except that converts exceptions into log lines or error events
    and then returns normally.  Each method is therefore modelled as a
    total Lean function; points at which the underlying vendor channel
    can raise are made explicit as an oracle argument of type
    Option String (none = the vendor operation succeeds, some e = it
    raises an exception whose message is e).
  * JSON values that can hold several runtime types (speaker tokens)
    are modelled by the inductive PyVal.
  * The distinct client-facing error strings of the source are modelled
    by the inductive ErrMsg, one constructor per format string:
    apiKeyNotProvided      = "API key not provided"
    connectionFailed e     = "Connection failed: " followed by e
    audioTransmission e    = "Audio transmission error: " followed by e
    responseProcessing e   = "Response processing error: " followed by e
    deepgramError d        = "Deepgram error: " followed by d
  * Seconds-valued timing fields are modelled as rationals; the source
    arithmetic (multiplication by 1000 and addition) is exact on the
    inputs of interest, so no floating-point rounding is involved.
-/

namespace STTCompare

/-- A Python/JSON value as it can appear in a vendor payload field that
the source inspects with isinstance checks (speaker tokens). -/
inductive PyVal where
  | str (s : String)
  | intV (n : Int)
  | boolV (b : Bool)
  | noneV
  deriving DecidableEq

/-- The client-facing error messages produced by the backend, one
constructor per distinct format string in the source (see module
comment for the exact mapping). -/
inductive ErrMsg where
  | apiKeyNotProvided
  | connectionFailed (detail : String)
  | audioTransmission (detail : String)
  | responseProcessing (detail : String)
  | deepgramError (detail : String)
  deriving DecidableEq

/-- A normalized transcript payload as built by both providers:
provider name, text, finality flag, start/end offsets in milliseconds,
optional confidence, optional speaker value. -/
structure Transcript where
  provider : String
  text : String
  is_final : Bool
  start_ms : Rat
  end_ms : Rat
  confidence : Option Rat
  speaker : Option PyVal
  deriving DecidableEq

/-- A message written to the client channel: a transcript event, a
lifecycle event, or an error event (provider attribution optional,
absent = session level). -/
inductive ClientEvent where
  | transcript (t : Transcript)
  | lifecycle (provider : String) (kind : String) (status : Option String)
  | error (provider : Option String) (msg : ErrMsg)
  deriving DecidableEq

/-- Surrounding whitespace stripped from a character list (the strip
performed by the Python builtin int on its string argument).  Strings
are handled through their character lists throughout so that all
operations are structurally recursive. -/
def stripChars (cs : List Char) : List Char :=
  ((cs.dropWhile Char.isWhitespace).reverse.dropWhile Char.isWhitespace).reverse

/-- Digits-only character list to Nat (helper for pyIntParse). -/
def digitsToNat (cs : List Char) : Option Nat :=
  if cs ≠ [] ∧ cs.all Char.isDigit then
    some (cs.foldl (fun a c => a * 10 + (c.toNat - 48)) 0)
  else none

/-- Model of the Python builtin int applied to the given characters:
surrounding whitespace is stripped, an optional sign is followed by
decimal digits; anything else raises ValueError (modelled as none).
Digit-group underscores accepted by Python are not modelled; no input
relevant to the claims contains them. -/
def pyIntParse (cs : List Char) : Option Int :=
  match stripChars cs with
  | '-' :: rest => (digitsToNat rest).map (fun n => -(n : Int))
  | '+' :: rest => (digitsToNat rest).map (fun n => (n : Int))
  | ds => (digitsToNat ds).map (fun n => (n : Int))

/-- The distinct elements of a list in order of first occurrence; this
is the key order of a Python Counter built from the list. -/
def firstKeys : List Int → List Int
  | [] => []
  | a :: rest => a :: (firstKeys rest).filter (fun x => x ≠ a)

/-- Index of the first occurrence of k in l (length of l if absent). -/
def firstIdx (l : List Int) (k : Int) : Nat :=
  match l with
  | [] => 0
  | a :: rest => if a = k then 0 else firstIdx rest k + 1

/-- First element of ks achieving the maximal value of cnt, scanning
left to right (a later element replaces the current pick only when its
count is strictly greater).  Applied to the Counter key order this is
exactly Counter.most_common(1): most_common sorts the insertion-ordered
items by count with a stable sort, so ties go to the earlier key. -/
def pickFirstMax (cnt : Int → Nat) : List Int → Option Int
  | [] => none
  | k :: ks =>
    match pickFirstMax cnt ks with
    | none => some k
    | some b => if cnt k < cnt b then some b else some k

/-- Model of Counter(l).most_common(1)[0][0] from
DeepgramProvider._process_response: the most frequent element of l,
ties broken in favor of the element whose first occurrence in l comes
first. -/
def mostCommon (l : List Int) : Option Int :=
  pickFirstMax (fun k => l.count k) (firstKeys l)

theorem pickFirstMax_eq_none_iff (cnt : Int → Nat) (ks : List Int) :
    pickFirstMax cnt ks = none ↔ ks = [] := by
  cases ks with
  | nil => simp [pickFirstMax]
  | cons k ks =>
    simp only [pickFirstMax]
    cases pickFirstMax cnt ks with
    | none => simp
    | some b => by_cases h : cnt k < cnt b <;> simp [h]

theorem pickFirstMax_spec (cnt : Int → Nat) :
    ∀ ks : List Int, ∀ m : Int, pickFirstMax cnt ks = some m →
      ∃ pre post, ks = pre ++ m :: post ∧
        (∀ k ∈ pre, cnt k < cnt m) ∧ (∀ k ∈ post, cnt k ≤ cnt m) := by
  intro ks
  induction ks with
  | nil => intro m h; simp [pickFirstMax] at h
  | cons k ks ih =>
    intro m h
    rcases hrest : pickFirstMax cnt ks with _ | b
    · have hks : ks = [] := (pickFirstMax_eq_none_iff cnt ks).mp hrest
      subst hks
      simp [pickFirstMax] at h
      subst h
      exact ⟨[], [], rfl, by simp, by simp⟩
    · rcases ih b hrest with ⟨pre, post, hdec, hpre, hpost⟩
      simp only [pickFirstMax, hrest] at h
      by_cases hc : cnt k < cnt b
      · rw [if_pos hc] at h
        have hbm : b = m := Option.some.inj h
        subst hbm
        refine ⟨k :: pre, post, by rw [hdec, List.cons_append], ?_, hpost⟩
        intro j hj
        rcases List.mem_cons.mp hj with hj | hj
        · subst hj; exact hc
        · exact hpre j hj
      · rw [if_neg hc] at h
        have hkm : k = m := Option.some.inj h
        subst hkm
        refine ⟨[], ks, rfl, by simp, ?_⟩
        intro j hj
        have hble : cnt b ≤ cnt k := Nat.le_of_not_lt hc
        rw [hdec] at hj
        rcases List.mem_append.mp hj with hj | hj
        · exact Nat.le_of_lt (Nat.lt_of_lt_of_le (hpre j hj) hble)
        · rcases List.mem_cons.mp hj with hj | hj
          · subst hj; exact hble
          · exact Nat.le_trans (hpost j hj) hble

theorem mem_firstKeys {k : Int} : ∀ {l : List Int}, k ∈ firstKeys l ↔ k ∈ l := by
  intro l
  induction l with
  | nil => simp [firstKeys]
  | cons a rest ih =>
    by_cases hk : k = a
    · subst hk; simp [firstKeys]
    · simp [firstKeys, List.mem_filter, hk, ih]

theorem firstKeys_pairwise (l : List Int) :
    (firstKeys l).Pairwise (fun a b => firstIdx l a < firstIdx l b) := by
  induction l with
  | nil => simp [firstKeys]
  | cons a rest ih =>
    rw [firstKeys]
    refine List.pairwise_cons.mpr ⟨?_, ?_⟩
    · intro b hb
      have hbne : b ≠ a := by
        have := (List.mem_filter.mp hb).2
        simpa using this
      simp only [firstIdx, if_pos rfl, if_neg (Ne.symm hbne)]
      exact Nat.succ_pos _
    · have hfilt := List.Pairwise.filter (fun x => decide (x ≠ a)) ih
      refine hfilt.imp_of_mem ?_
      intro x y hx hy hxy
      have hxne : x ≠ a := by
        have := (List.mem_filter.mp hx).2
        simpa using this
      have hyne : y ≠ a := by
        have := (List.mem_filter.mp hy).2
        simpa using this
      simp only [firstIdx, if_neg (Ne.symm hxne), if_neg (Ne.symm hyne)]
      exact Nat.succ_lt_succ hxy

theorem mostCommon_isSome {l : List Int} (h : l ≠ []) :
    ∃ m, mostCommon l = some m := by
  rcases hm : mostCommon l with _ | m
  · unfold mostCommon at hm
    have hfk : firstKeys l = [] :=
      (pickFirstMax_eq_none_iff (fun k => l.count k) (firstKeys l)).mp hm
    cases l with
    | nil => exact absurd rfl h
    | cons a rest => simp [firstKeys] at hfk
  · exact ⟨m, rfl⟩

/-- Characterization of mostCommon: the result is an element of the
list, its multiplicity is maximal, and among elements of maximal
multiplicity its first occurrence comes first. -/
theorem mostCommon_spec (l : List Int) (m : Int) (h : mostCommon l = some m) :
    m ∈ l ∧ (∀ k ∈ l, l.count k ≤ l.count m) ∧
      (∀ k ∈ l, l.count k = l.count m → firstIdx l m ≤ firstIdx l k) := by
  unfold mostCommon at h
  rcases pickFirstMax_spec (fun k => l.count k) (firstKeys l) m h with
    ⟨pre, post, hdec, hpre, hpost⟩
  have hmem : m ∈ firstKeys l := by
    rw [hdec]; exact List.mem_append.mpr (Or.inr (List.mem_cons_self _ _))
  have hsorted := firstKeys_pairwise l
  rw [hdec] at hsorted
  have hsplit := List.pairwise_append.mp hsorted
  have hmpost : ∀ b ∈ post, firstIdx l m < firstIdx l b :=
    (List.pairwise_cons.mp hsplit.2.1).1
  refine ⟨mem_firstKeys.mp hmem, ?_, ?_⟩
  · intro k hk
    have hkfk : k ∈ firstKeys l := mem_firstKeys.mpr hk
    rw [hdec] at hkfk
    rcases List.mem_append.mp hkfk with hkpre | hkrest
    · exact Nat.le_of_lt (hpre k hkpre)
    · rcases List.mem_cons.mp hkrest with hkm | hkpost
      · subst hkm; exact Nat.le_refl _
      · exact hpost k hkpost
  · intro k hk htie
    have hkfk : k ∈ firstKeys l := mem_firstKeys.mpr hk
    rw [hdec] at hkfk
    rcases List.mem_append.mp hkfk with hkpre | hkrest
    · exact absurd htie (Nat.ne_of_lt (hpre k hkpre))
    · rcases List.mem_cons.mp hkrest with hkm | hkpost
      · subst hkm; exact Nat.le_refl _
      · exact Nat.le_of_lt (hmpost k hkpost)

/-! ## Deepgram adapter (src/backend/providers/deepgram_provider.py) -/

/-- A word entry of a Deepgram alternative; only the optional speaker
tag is inspected by the source. -/
structure DgWord where
  speaker : Option Int
  deriving DecidableEq

/-- The first-alternative object of a Deepgram transcription result:
transcript text (empty string models both absent and empty, exactly as
alternative.get with default empty string does), optional confidence,
optional utterance-level speaker, optional word list. -/
structure DgAlternative where
  transcript : String
  confidence : Option Rat
  speaker : Option Int
  words : Option (List DgWord)
  deriving DecidableEq

/-- A Deepgram transcription-result message (the branch of
_process_response taken when the payload has channel.alternatives). -/
structure DgResult where
  alternatives : List DgAlternative
  is_final : Option Bool
  start : Option Rat
  duration : Option Rat
  deriving DecidableEq

/-- A decoded Deepgram wire message: a JSON decode failure, a
transcription result, a typed metadata message, or a payload matching
neither branch of _process_response. -/
inductive DgMsg where
  | malformed
  | result (r : DgResult)
  | typed (ty : String) (description : Option String)
  | other
  deriving DecidableEq

/-- One outcome of provider_websocket.recv() in the Deepgram listen
loop: a message, a ConnectionClosed exception, or another exception. -/
inductive DgRecv where
  | message (m : DgMsg)
  | connClosed
  | recvError (e : String)
  deriving DecidableEq

/-- Mutable state of a DeepgramProvider instance: whether
provider_websocket is set, whether that websocket is closed, and the
is_connected flag. -/
structure DgState where
  hasWs : Bool
  wsClosed : Bool
  is_connected : Bool
  deriving DecidableEq

/-- Word speakers extracted in _process_response: the speaker tag of
every word that has one, in word order. -/
def wordSpeakers (ws : List DgWord) : List Int :=
  ws.filterMap DgWord.speaker

/-- Speaker field attached to a Deepgram transcript (lines 139-149 of
deepgram_provider.py): the utterance-level speaker if present, else the
most common word-level speaker if any word carries one, else absent. -/
def dgSpeakerField (alt : DgAlternative) : Option PyVal :=
  match alt.speaker with
  | some s => some (PyVal.intV s)
  | none =>
    match alt.words with
    | none => none
    | some ws =>
      if ws.isEmpty then none
      else
        let speakers := wordSpeakers ws
        if speakers.isEmpty then none
        else (mostCommon speakers).map (fun n => PyVal.intV n)

/-- DeepgramProvider._process_response as a function from a decoded
message to the client events it sends.  The body is wrapped in
try/except in the source: a JSON decode failure is logged and the
message dropped; the function always returns normally. -/
def dgProcessResp : DgMsg → List ClientEvent
  | DgMsg.malformed => []
  | DgMsg.result r =>
    match r.alternatives.head? with
    | none => []
    | some alt =>
      if alt.transcript = "" then []
      else
        let start_ms := (r.start.getD 0) * 1000
        let duration_ms := (r.duration.getD 0) * 1000
        [ClientEvent.transcript
          { provider := "deepgram"
            text := alt.transcript
            is_final := r.is_final.getD false
            start_ms := start_ms
            end_ms := start_ms + duration_ms
            confidence := some (alt.confidence.getD 0)
            speaker := dgSpeakerField alt }]
  | DgMsg.typed ty description =>
    if ty = "Error" then
      [ClientEvent.error (some "deepgram")
        (ErrMsg.deepgramError (description.getD "Unknown error"))]
    else []
  | DgMsg.other => []

/-- One iteration of DeepgramProvider._listen_for_responses: a received
message is processed; a ConnectionClosed exception is caught and only
logged; any other receive exception is caught and reported as a
provider-attributed error event.  Always returns normally. -/
def dgListenIter : DgRecv → List ClientEvent
  | DgRecv.message m => dgProcessResp m
  | DgRecv.connClosed => []
  | DgRecv.recvError e =>
    [ClientEvent.error (some "deepgram") (ErrMsg.responseProcessing e)]

/-- DeepgramProvider.connect: on success the vendor websocket is
stored and is_connected set; on a connect exception (oracle some e) the
exception is caught, an error event is sent, and the method returns
normally with provider_websocket still unset and is_connected false. -/
def dgConnect (outcome : Option String) : DgState × List ClientEvent :=
  match outcome with
  | none => (⟨true, false, true⟩, [])
  | some e =>
    (⟨false, false, false⟩,
     [ClientEvent.error (some "deepgram") (ErrMsg.connectionFailed e)])

/-- Result of a send_audio call: the client events it produced and
whether the audio frame was handed to the vendor channel. -/
structure SendResult where
  events : List ClientEvent
  delivered : Bool
  deriving DecidableEq

/-- DeepgramProvider.send_audio: the frame is sent only when
provider_websocket is set and is_connected holds; a send exception
(oracle some e) is caught and reported as a provider-attributed error
event.  Always returns normally. -/
def dgSendAudio (st : DgState) (outcome : Option String) : SendResult :=
  if st.hasWs && st.is_connected then
    match outcome with
    | none => ⟨[], true⟩
    | some e =>
      ⟨[ClientEvent.error (some "deepgram") (ErrMsg.audioTransmission e)], false⟩
  else ⟨[], false⟩

/-- Result of a disconnect call on the Deepgram adapter: new state,
whether the CloseStream handshake was sent, and the client events
produced (the except branch only logs, so the event list is always
empty in the source). -/
structure DgDiscRes where
  state : DgState
  closeSent : Bool
  events : List ClientEvent
  deriving DecidableEq

/-- DeepgramProvider.disconnect: when the vendor websocket is set and
not yet closed, the CloseStream handshake is sent and the socket
closed; is_connected is then cleared.  An exception inside the guarded
block (oracle some e) is caught and logged, leaving the flags as they
were.  No client event is ever produced. -/
def dgDisconnect (st : DgState) (outcome : Option String) : DgDiscRes :=
  if st.hasWs && !st.wsClosed then
    match outcome with
    | none => ⟨⟨st.hasWs, true, false⟩, true, []⟩
    | some _ => ⟨st, false, []⟩
  else ⟨⟨st.hasWs, st.wsClosed, false⟩, false, []⟩

/-! ## Speechmatics adapter (src/backend/providers/speechmatics_provider.py) -/

/-- One segment of a Speechmatics AddSegment / AddPartialSegment
message.  Absent keys are modelled as none; speaker_id, when present,
can be any JSON value (PyVal.noneV models JSON null, which the source
treats like an absent key).  has_final is the internal
partial-finalization hint the vendor may attach; the source never reads
it. -/
structure SmSegment where
  text : Option String
  start_time : Option Rat
  end_time : Option Rat
  confidence : Option Rat
  speaker_id : Option PyVal
  has_final : Option Bool
  deriving DecidableEq

/-- Mutable state of a SpeechmaticsProvider instance: whether
voice_client is set (it is never cleared once set) and the
is_connected flag. -/
structure SmState where
  hasClient : Bool
  is_connected : Bool
  deriving DecidableEq

/-- The speaker conversion block duplicated verbatim in
_handle_partial_segments and _handle_final_segments: a string starting
with S has its remainder parsed by int and converted to a 0-based
index; an unparsable remainder raises ValueError (the error case);
every other value is passed through unchanged. -/
def smConvertSpeaker (v : PyVal) : Except String PyVal :=
  match v with
  | PyVal.str s =>
    match s.data with
    | c :: rest =>
      if c = 'S' then
        match pyIntParse rest with
        | some n => Except.ok (PyVal.intV (n - 1))
        | none => Except.error "ValueError"
      else Except.ok (PyVal.str s)
    | [] => Except.ok (PyVal.str s)
  | v => Except.ok v

/-- The transcript built for one segment by _handle_partial_segments:
is_final is the literal False, timings are seconds times 1000, no
confidence key is ever written, and the speaker key is added only when
speaker_id is present and not null.  The error case is the ValueError
escaping the speaker conversion. -/
def smPartialSegEvent (seg : SmSegment) : Except String Transcript :=
  let base : Transcript :=
    { provider := "speechmatics"
      text := seg.text.getD ""
      is_final := false
      start_ms := (seg.start_time.getD 0) * 1000
      end_ms := (seg.end_time.getD 0) * 1000
      confidence := none
      speaker := none }
  match seg.speaker_id with
  | some v =>
    if v = PyVal.noneV then Except.ok base
    else
      match smConvertSpeaker v with
      | Except.ok sv => Except.ok { base with speaker := some sv }
      | Except.error e => Except.error e
  | none => Except.ok base

/-- The transcript built for one segment by _handle_final_segments:
identical to the partial case except that is_final is the literal True
and a confidence key is always written, defaulting to 0.0. -/
def smFinalSegEvent (seg : SmSegment) : Except String Transcript :=
  let base : Transcript :=
    { provider := "speechmatics"
      text := seg.text.getD ""
      is_final := true
      start_ms := (seg.start_time.getD 0) * 1000
      end_ms := (seg.end_time.getD 0) * 1000
      confidence := some (seg.confidence.getD 0)
      speaker := none }
  match seg.speaker_id with
  | some v =>
    if v = PyVal.noneV then Except.ok base
    else
      match smConvertSpeaker v with
      | Except.ok sv => Except.ok { base with speaker := some sv }
      | Except.error e => Except.error e
  | none => Except.ok base

/-- The per-segment loop shared by both segment handlers: each segment
event is sent as soon as it is built; an exception while building a
segment aborts the loop, so earlier events stay sent and the raising
segment and all later ones are dropped. -/
def smEmitSegs (f : SmSegment → Except String Transcript) :
    List SmSegment → List ClientEvent
  | [] => []
  | seg :: rest =>
    match f seg with
    | Except.ok t => ClientEvent.transcript t :: smEmitSegs f rest
    | Except.error _ => []

/-- SpeechmaticsProvider._handle_partial_segments on a whole message
(none models a payload without a segments key, whose KeyError the
handler catches).  The handler wraps everything in try/except and only
logs the exception, so it always returns normally. -/
def smPartialRun : Option (List SmSegment) → List ClientEvent
  | none => []
  | some segs => smEmitSegs smPartialSegEvent segs

/-- SpeechmaticsProvider._handle_final_segments on a whole message;
same exception boundary as the partial handler. -/
def smFinalRun : Option (List SmSegment) → List ClientEvent
  | none => []
  | some segs => smEmitSegs smFinalSegEvent segs

/-- SpeechmaticsProvider.connect: on success the voice client is
created and connected; on an exception during voice_client.connect()
(oracle some e) the client object is already stored, is_connected stays
false, the error is reported and the method returns normally. -/
def smConnect (outcome : Option String) : SmState × List ClientEvent :=
  match outcome with
  | none => (⟨true, true⟩, [])
  | some e =>
    (⟨true, false⟩,
     [ClientEvent.error (some "speechmatics") (ErrMsg.connectionFailed e)])

/-- SpeechmaticsProvider.send_audio: the frame is sent only when
voice_client is set and is_connected holds; a send exception (oracle
some e) is caught and reported as a provider-attributed error event.
Always returns normally. -/
def smSendAudio (st : SmState) (outcome : Option String) : SendResult :=
  if st.hasClient && st.is_connected then
    match outcome with
    | none => ⟨[], true⟩
    | some e =>
      ⟨[ClientEvent.error (some "speechmatics") (ErrMsg.audioTransmission e)],
       false⟩
  else ⟨[], false⟩

/-- Result of a disconnect call on the Speechmatics adapter: new
state, whether voice_client.close() was invoked, and the client events
produced (always empty in the source, the except branch only logs). -/
structure SmDiscRes where
  state : SmState
  closeCalled : Bool
  events : List ClientEvent
  deriving DecidableEq

/-- SpeechmaticsProvider.disconnect: voice_client.close() is invoked
whenever voice_client is set, with no closed-state guard and without
clearing voice_client; is_connected is then cleared.  An exception from
close() (oracle some e) is caught and logged, skipping the flag reset.
No client event is ever produced. -/
def smDisconnect (st : SmState) (outcome : Option String) : SmDiscRes :=
  if st.hasClient then
    match outcome with
    | none => ⟨⟨st.hasClient, false⟩, true, []⟩
    | some _ => ⟨st, true, []⟩
  else ⟨⟨st.hasClient, false⟩, false, []⟩

/-! ## Session coordinator (src/backend/main.py, ConnectionManager) -/

/-- The per-provider sub-object of a configuration message; only the
apiKey entry is inspected for activation (none models an absent key). -/
structure ProviderCfg where
  apiKey : Option String
  deriving DecidableEq

/-- A configuration message: the two provider sub-objects (none models
an absent sub-object, which config.get replaces by an empty dict). -/
structure Config where
  speechmatics : Option ProviderCfg
  deepgram : Option ProviderCfg
  deriving DecidableEq

/-- Python truthiness of speechmatics_config.get("apiKey"): the key is
present and its string value non-empty. -/
def keyTruthy : Option ProviderCfg → Bool
  | some pc =>
    match pc.apiKey with
    | some k => k ≠ ""
    | none => false
  | none => false

/-- The per-connection adapter map held in active_connections: the
optional adapter instance of each provider. -/
structure ConnState where
  sm : Option SmState
  dg : Option DgState
  deriving DecidableEq

/-- Result of ConnectionManager.initialize_providers: the adapter
instances stored in connection_data plus the client events sent. -/
structure InitResult where
  smAdapter : Option SmState
  dgAdapter : Option DgState
  events : List ClientEvent
  deriving DecidableEq

/-- The Speechmatics block of initialize_providers: with a truthy
apiKey the adapter is constructed, connected (connect swallows its own
failures) and stored unconditionally; otherwise a single
provider-attributed API-key error event is sent and no adapter is
created. -/
def smInitPart (cfg : Config) (so : Option String) :
    Option SmState × List ClientEvent :=
  if keyTruthy cfg.speechmatics then
    (some (smConnect so).1, (smConnect so).2)
  else
    (none, [ClientEvent.error (some "speechmatics") ErrMsg.apiKeyNotProvided])

/-- The Deepgram block of initialize_providers, mirroring the
Speechmatics block. -/
def dgInitPart (cfg : Config) (od : Option String) :
    Option DgState × List ClientEvent :=
  if keyTruthy cfg.deepgram then
    (some (dgConnect od).1, (dgConnect od).2)
  else
    (none, [ClientEvent.error (some "deepgram") ErrMsg.apiKeyNotProvided])

/-- ConnectionManager.initialize_providers: the Speechmatics block runs
first, then the Deepgram block.  The surrounding try/except that would
report a session-level error is unreachable because both connect
methods catch all their exceptions. -/
def initProviders (cfg : Config) (so od : Option String) : InitResult :=
  { smAdapter := (smInitPart cfg so).1
    dgAdapter := (dgInitPart cfg od).1
    events := (smInitPart cfg so).2 ++ (dgInitPart cfg od).2 }

/-- Result of the audio fan-out: the outcome of the send task of each
provider, none when that provider has no adapter instance and hence no
task is created. -/
structure FanoutResult where
  smRes : Option SendResult
  dgRes : Option SendResult
  deriving DecidableEq

/-- ConnectionManager.send_audio_to_providers: one send_audio task per
stored adapter, run under asyncio.gather with return_exceptions=True,
so each task runs to completion independently of the other. -/
def fanout (conn : ConnState) (so od : Option String) : FanoutResult :=
  { smRes := conn.sm.map (fun st => smSendAudio st so)
    dgRes := conn.dg.map (fun st => dgSendAudio st od) }

/-- Result of ConnectionManager.stop_providers: the updated adapter
map, whether each disconnect was invoked, and the client events sent
(disconnect never sends any). -/
structure StopRes where
  conn : ConnState
  smDisconnectCalled : Bool
  dgDisconnectCalled : Bool
  events : List ClientEvent
  deriving DecidableEq

/-- ConnectionManager.stop_providers: each stored adapter is
disconnected and its map entry cleared; absent entries are skipped. -/
def stopProviders (conn : ConnState) (so od : Option String) : StopRes :=
  match conn.sm, conn.dg with
  | some sst, some dst =>
    ⟨⟨none, none⟩, true, true,
     (smDisconnect sst so).events ++ (dgDisconnect dst od).events⟩
  | some sst, none =>
    ⟨⟨none, none⟩, true, false, (smDisconnect sst so).events⟩
  | none, some dst =>
    ⟨⟨none, none⟩, false, true, (dgDisconnect dst od).events⟩
  | none, none => ⟨⟨none, none⟩, false, false, []⟩

/-- ConnectionManager.disconnect viewed through the session registry:
the entry is removed only when the websocket is still registered.
Input: whether the session is registered; output: registration after
the call and whether a removal was performed. -/
def managerDisconnect (registered : Bool) : Bool × Bool :=
  if registered then (false, true) else (false, false)

/-- Recognizer for the exact API-key error event of a given provider,
used to count such events in an event stream. -/
def isApiKeyErr (p : String) : ClientEvent → Bool
  | ClientEvent.error (some q) ErrMsg.apiKeyNotProvided => q == p
  | _ => false

/-! ## Structural lemmas -/

/-- The single transcript event emitted by _process_response for a
result message with a first alternative carrying non-empty text. -/
theorem dgProcessResp_result_eq (r : DgResult) (alt : DgAlternative)
    (h1 : r.alternatives.head? = some alt) (h2 : alt.transcript ≠ "") :
    dgProcessResp (DgMsg.result r) =
      [ClientEvent.transcript
        { provider := "deepgram"
          text := alt.transcript
          is_final := r.is_final.getD false
          start_ms := (r.start.getD 0) * 1000
          end_ms := (r.start.getD 0) * 1000 + (r.duration.getD 0) * 1000
          confidence := some (alt.confidence.getD 0)
          speaker := dgSpeakerField alt }] := by
  simp only [dgProcessResp, h1]
  rw [if_neg h2]

/-- Fields of a transcript successfully built by the final-segment
handler for one segment. -/
theorem smFinalSegEvent_fields (seg : SmSegment) (t : Transcript)
    (h : smFinalSegEvent seg = Except.ok t) :
    t.is_final = true ∧ t.start_ms = (seg.start_time.getD 0) * 1000 ∧
      t.end_ms = (seg.end_time.getD 0) * 1000 ∧
      t.confidence = some (seg.confidence.getD 0) := by
  rcases hsp : seg.speaker_id with _ | v
  · simp only [smFinalSegEvent, hsp] at h
    cases Except.ok.inj h
    exact ⟨rfl, rfl, rfl, rfl⟩
  · simp only [smFinalSegEvent, hsp] at h
    by_cases hv : v = PyVal.noneV
    · rw [if_pos hv] at h
      cases Except.ok.inj h
      exact ⟨rfl, rfl, rfl, rfl⟩
    · rw [if_neg hv] at h
      rcases hcv : smConvertSpeaker v with e | sv
      · simp only [hcv] at h
        cases h
      · simp only [hcv] at h
        cases Except.ok.inj h
        exact ⟨rfl, rfl, rfl, rfl⟩

/-- Fields of a transcript successfully built by the partial-segment
handler for one segment. -/
theorem smPartialSegEvent_fields (seg : SmSegment) (t : Transcript)
    (h : smPartialSegEvent seg = Except.ok t) :
    t.is_final = false ∧ t.start_ms = (seg.start_time.getD 0) * 1000 ∧
      t.end_ms = (seg.end_time.getD 0) * 1000 ∧ t.confidence = none := by
  rcases hsp : seg.speaker_id with _ | v
  · simp only [smPartialSegEvent, hsp] at h
    cases Except.ok.inj h
    exact ⟨rfl, rfl, rfl, rfl⟩
  · simp only [smPartialSegEvent, hsp] at h
    by_cases hv : v = PyVal.noneV
    · rw [if_pos hv] at h
      cases Except.ok.inj h
      exact ⟨rfl, rfl, rfl, rfl⟩
    · rw [if_neg hv] at h
      rcases hcv : smConvertSpeaker v with e | sv
      · simp only [hcv] at h
        cases h
      · simp only [hcv] at h
        cases Except.ok.inj h
        exact ⟨rfl, rfl, rfl, rfl⟩

/-- Every transcript in the output of the shared segment loop comes
from a successful per-segment build. -/
theorem smEmitSegs_mem (f : SmSegment → Except String Transcript) :
    ∀ (segs : List SmSegment) (t : Transcript),
      ClientEvent.transcript t ∈ smEmitSegs f segs →
      ∃ seg ∈ segs, f seg = Except.ok t := by
  intro segs
  induction segs with
  | nil => intro t ht; simp [smEmitSegs] at ht
  | cons seg rest ih =>
    intro t ht
    unfold smEmitSegs at ht
    rcases hf : f seg with e | t0
    · rw [hf] at ht; simp at ht
    · rw [hf] at ht
      rcases List.mem_cons.mp ht with heq | hmem
      · have : t0 = t := ClientEvent.transcript.inj heq.symm
        subst this
        exact ⟨seg, List.mem_cons_self _ _, hf⟩
      · rcases ih t hmem with ⟨sg, hsg, hok⟩
        exact ⟨sg, List.mem_cons_of_mem _ hsg, hok⟩

/-! ## Claim theorems -/

/-- Claim C3, counterexample: a sendAudio call on an adapter that is
not Connected (here: Deepgram after its websocket was closed, flag
cleared) emits no event at all — in particular no provider-attributed
error event, contrary to the claim that such a call reports an error. -/
theorem sendAudio_not_connected_counterexample :
    dgSendAudio ⟨true, true, false⟩ none = ⟨[], false⟩ ∧
    smSendAudio ⟨false, false⟩ none = ⟨[], false⟩ := by
  exact ⟨rfl, rfl⟩

/-- Claim C3, amended: for every adapter whose is_connected flag is
false, a sendAudio call is a silent no-op — nothing is sent to the
vendor channel, no exception escapes, and no event (in particular no
error event) is sent to the client.  An error event is produced only
when a send is actually attempted (flag set) and the vendor channel
raises. -/
theorem sendAudio_not_connected_noop :
    (∀ (st : DgState) (o : Option String), st.is_connected = false →
       dgSendAudio st o = ⟨[], false⟩) ∧
    (∀ (st : SmState) (o : Option String), st.is_connected = false →
       smSendAudio st o = ⟨[], false⟩) := by
  constructor
  · intro st o h
    unfold dgSendAudio
    rw [h]
    simp
  · intro st o h
    unfold smSendAudio
    rw [h]
    simp

/-- Witness for the amended claim C3 at concrete states. -/
theorem sendAudio_not_connected_noop_witness :
    dgSendAudio ⟨true, true, false⟩ (some "boom") = ⟨[], false⟩ ∧
    smSendAudio ⟨true, false⟩ (some "boom") = ⟨[], false⟩ :=
  ⟨sendAudio_not_connected_noop.1 ⟨true, true, false⟩ (some "boom") rfl,
   sendAudio_not_connected_noop.2 ⟨true, false⟩ (some "boom") rfl⟩

/-- Claim C4: every transcript event produced by the partial-segment
handler has is_final false, whatever the segments contain — including
any has_final hint. -/
theorem partialSegments_never_final :
    ∀ (msg : Option (List SmSegment)) (t : Transcript),
      ClientEvent.transcript t ∈ smPartialRun msg → t.is_final = false := by
  intro msg t ht
  rcases msg with _ | segs
  · simp [smPartialRun] at ht
  · rcases smEmitSegs_mem smPartialSegEvent segs t ht with ⟨seg, _, hok⟩
    exact (smPartialSegEvent_fields seg t hok).1

/-- Witness for claim C4: a partial segment carrying a has_final hint
still yields a non-final transcript. -/
theorem partialSegments_never_final_witness :
    (Transcript.mk "speechmatics" "hi" false 0 1000 none none).is_final
      = false :=
  partialSegments_never_final
    (some [SmSegment.mk (some "hi") (some 0) (some 1) none none (some true)])
    (Transcript.mk "speechmatics" "hi" false 0 1000 none none)
    (by norm_num [smPartialRun, smEmitSegs, smPartialSegEvent])

/-- Claim C7: Deepgram events carry start times 1000 and end times
start plus duration times 1000; Speechmatics segment events carry
segment start and end times times 1000. -/
theorem timing_ms_conversion :
    (∀ (r : DgResult) (alt : DgAlternative),
       r.alternatives.head? = some alt → alt.transcript ≠ "" →
       ∀ s d : Rat, r.start = some s → r.duration = some d →
       ∃ t, dgProcessResp (DgMsg.result r) = [ClientEvent.transcript t] ∧
         t.start_ms = s * 1000 ∧ t.end_ms = s * 1000 + d * 1000) ∧
    (∀ (seg : SmSegment) (a b : Rat) (t : Transcript),
       seg.start_time = some a → seg.end_time = some b →
       smFinalSegEvent seg = Except.ok t →
       t.start_ms = a * 1000 ∧ t.end_ms = b * 1000) ∧
    (∀ (seg : SmSegment) (a b : Rat) (t : Transcript),
       seg.start_time = some a → seg.end_time = some b →
       smPartialSegEvent seg = Except.ok t →
       t.start_ms = a * 1000 ∧ t.end_ms = b * 1000) := by
  refine ⟨?_, ?_, ?_⟩
  · intro r alt h1 h2 s d hs hd
    refine ⟨_, dgProcessResp_result_eq r alt h1 h2, ?_, ?_⟩
    · simp [hs]
    · simp [hs, hd]
  · intro seg a b t ha hb hok
    have hf := smFinalSegEvent_fields seg t hok
    rw [ha, hb] at hf
    exact ⟨hf.2.1, hf.2.2.1⟩
  · intro seg a b t ha hb hok
    have hf := smPartialSegEvent_fields seg t hok
    rw [ha, hb] at hf
    exact ⟨hf.2.1, hf.2.2.1⟩

/-- Witness for claim C7: start 1s with duration one half second gives
1000 and 1500 ms (Deepgram); a segment from 2s to 2.75s gives 2000 and
2750 ms (Speechmatics). -/
theorem timing_ms_conversion_witness :
    (∃ t, dgProcessResp (DgMsg.result
        (DgResult.mk [DgAlternative.mk "hello" none none none]
          (some true) (some 1) (some (1/2)))) = [ClientEvent.transcript t] ∧
       t.start_ms = 1 * 1000 ∧ t.end_ms = 1 * 1000 + (1/2) * 1000) ∧
    ((Transcript.mk "speechmatics" "hey" true 2000 2750 (some 0) none).start_ms
        = 2 * 1000 ∧
     (Transcript.mk "speechmatics" "hey" true 2000 2750 (some 0) none).end_ms
        = (11/4 : Rat) * 1000) :=
  ⟨timing_ms_conversion.1
     (DgResult.mk [DgAlternative.mk "hello" none none none]
       (some true) (some 1) (some (1/2)))
     (DgAlternative.mk "hello" none none none) rfl (by decide)
     1 (1/2) rfl rfl,
   timing_ms_conversion.2.1
     (SmSegment.mk (some "hey") (some 2) (some (11/4)) none none none)
     2 (11/4)
     (Transcript.mk "speechmatics" "hey" true 2000 2750 (some 0) none)
     rfl rfl (by norm_num [smFinalSegEvent])⟩

/-- Claim C8, counterexample: a Deepgram result whose alternative
carries no confidence value still yields an event whose confidence
field is present, with the default value 0 — the field is not
omitted. -/
theorem confidence_included_counterexample :
    dgProcessResp (DgMsg.result
        (DgResult.mk [DgAlternative.mk "hi" none none none]
          (some true) (some 1) (some 1))) =
      [ClientEvent.transcript
        (Transcript.mk "deepgram" "hi" true 1000 2000 (some 0) none)] ∧
    (Transcript.mk "deepgram" "hi" true 1000 2000 (some 0) none).confidence
      ≠ none := by
  refine ⟨?_, by decide⟩
  norm_num [dgProcessResp, dgSpeakerField]
  decide

/-- Claim C8, amended: only Speechmatics partial-segment events omit
the confidence field; Deepgram transcript events and Speechmatics
final-segment events always carry a confidence field, defaulting to 0
when the vendor message has none. -/
theorem confidence_field_policy :
    (∀ (seg : SmSegment) (t : Transcript),
       smPartialSegEvent seg = Except.ok t → t.confidence = none) ∧
    (∀ (seg : SmSegment) (t : Transcript),
       smFinalSegEvent seg = Except.ok t →
       t.confidence = some (seg.confidence.getD 0)) ∧
    (∀ (r : DgResult) (alt : DgAlternative),
       r.alternatives.head? = some alt → alt.transcript ≠ "" →
       ∃ t, dgProcessResp (DgMsg.result r) = [ClientEvent.transcript t] ∧
         t.confidence = some (alt.confidence.getD 0)) := by
  refine ⟨?_, ?_, ?_⟩
  · intro seg t h
    exact (smPartialSegEvent_fields seg t h).2.2.2
  · intro seg t h
    exact (smFinalSegEvent_fields seg t h).2.2.2
  · intro r alt h1 h2
    exact ⟨_, dgProcessResp_result_eq r alt h1 h2, rfl⟩

/-- Witness for the amended claim C8 at concrete messages. -/
theorem confidence_field_policy_witness :
    (Transcript.mk "speechmatics" "hi" false 0 1000 none none).confidence
        = none ∧
    ∃ t, dgProcessResp (DgMsg.result
        (DgResult.mk [DgAlternative.mk "hi" none none none]
          (some true) (some 1) (some 1))) = [ClientEvent.transcript t] ∧
      t.confidence = some ((none : Option Rat).getD 0) :=
  ⟨confidence_field_policy.1
     (SmSegment.mk (some "hi") (some 0) (some 1) none none none)
     (Transcript.mk "speechmatics" "hi" false 0 1000 none none)
     (by norm_num [smPartialSegEvent]),
   confidence_field_policy.2.2
     (DgResult.mk [DgAlternative.mk "hi" none none none]
       (some true) (some 1) (some 1))
     (DgAlternative.mk "hi" none none none) rfl (by decide)⟩

/-- Claim C9, counterexample: disconnecting a Speechmatics adapter that
was already disconnected invokes voice_client.close() a second time —
the source guards only on the client object being set, never clears it
and keeps no closed flag, so the vendor-close side effect is repeated. -/
theorem sm_disconnect_repeat_counterexample :
    (smDisconnect (smDisconnect ⟨true, true⟩ none).state none).closeCalled
      = true := by
  decide

/-- Claim C9, amended: repeated stop and disconnect never produce an
error event anywhere, a second Deepgram disconnect is a complete no-op
(no second CloseStream handshake, state unchanged), a second
stop_providers call invokes no adapter disconnect, and the session
registry entry is removed at most once; however a repeated Speechmatics
disconnect invokes the vendor-client close again whenever the client
object exists (it is never cleared). -/
theorem stop_disconnect_idempotent :
    (∀ st : DgState, dgDisconnect (dgDisconnect st none).state none =
       ⟨(dgDisconnect st none).state, false, []⟩) ∧
    (∀ (st : DgState) (o : Option String), (dgDisconnect st o).events = []) ∧
    (∀ (st : SmState) (o : Option String), (smDisconnect st o).events = []) ∧
    (∀ (conn : ConnState) (so od so2 od2 : Option String),
       stopProviders (stopProviders conn so od).conn so2 od2 =
         ⟨(stopProviders conn so od).conn, false, false, []⟩) ∧
    (managerDisconnect false = (false, false)) ∧
    ((managerDisconnect (managerDisconnect true).1).2 = false) ∧
    (∀ st : SmState,
       (smDisconnect (smDisconnect st none).state none).closeCalled
         = st.hasClient) := by
  refine ⟨?_, ?_, ?_, ?_, rfl, rfl, ?_⟩
  · intro st
    rcases st with ⟨hw, wc, ic⟩
    revert hw wc ic
    decide
  · intro st o
    unfold dgDisconnect
    rcases o with _ | e <;> split <;> rfl
  · intro st o
    unfold smDisconnect
    rcases o with _ | e <;> split <;> rfl
  · intro conn so od so2 od2
    rcases conn with ⟨sm, dg⟩
    rcases sm with _ | sst <;> rcases dg with _ | dst <;> rfl
  · intro st
    rcases st with ⟨hc, ic⟩
    revert hc ic
    decide

/-- Claim C10: a failed vendor connect is swallowed inside connect
(which returns normally after sending a provider-attributed error
event), leaves is_connected false, yet initialize_providers stores the
failed adapter instance; audio frames addressed to it are then silently
discarded and a later stop still invokes its disconnect. -/
theorem failed_connect_adapter_kept (e e2 : String) (cfg : Config)
    (hsm : keyTruthy cfg.speechmatics = true)
    (hdg : keyTruthy cfg.deepgram = true) :
    smConnect (some e) = (⟨true, false⟩,
      [ClientEvent.error (some "speechmatics") (ErrMsg.connectionFailed e)]) ∧
    dgConnect (some e2) = (⟨false, false, false⟩,
      [ClientEvent.error (some "deepgram") (ErrMsg.connectionFailed e2)]) ∧
    (initProviders cfg (some e) (some e2)).smAdapter = some ⟨true, false⟩ ∧
    (initProviders cfg (some e) (some e2)).dgAdapter
      = some ⟨false, false, false⟩ ∧
    (∀ o, smSendAudio ⟨true, false⟩ o = ⟨[], false⟩) ∧
    (∀ o, dgSendAudio ⟨false, false, false⟩ o = ⟨[], false⟩) ∧
    (stopProviders ⟨some ⟨true, false⟩, some ⟨false, false, false⟩⟩
        none none).smDisconnectCalled = true ∧
    (stopProviders ⟨some ⟨true, false⟩, some ⟨false, false, false⟩⟩
        none none).dgDisconnectCalled = true := by
  refine ⟨rfl, rfl, ?_, ?_, ?_, ?_, rfl, rfl⟩
  · simp [initProviders, smInitPart, hsm, smConnect]
  · simp [initProviders, dgInitPart, hdg, dgConnect]
  · intro o; rcases o with _ | x <;> rfl
  · intro o; rcases o with _ | x <;> rfl

/-- Witness for claim C10 at a concrete configuration holding both
keys: the stored Speechmatics adapter is the failed, unconnected one. -/
theorem failed_connect_adapter_kept_witness :
    (initProviders
        (Config.mk (some (ProviderCfg.mk (some "k1")))
          (some (ProviderCfg.mk (some "k2"))))
        (some "boom") (some "boom2")).smAdapter = some ⟨true, false⟩ :=
  (failed_connect_adapter_kept "boom" "boom2"
    (Config.mk (some (ProviderCfg.mk (some "k1")))
      (some (ProviderCfg.mk (some "k2"))))
    (by decide) (by decide)).2.2.1

/-- Claim C2: an adapter instance is created and connected exactly for
the providers whose configuration carries a truthy apiKey, and the
event stream contains exactly one API-key error event for each provider
without one and none for a provider with one. -/
theorem config_activation (cfg : Config) (so od : Option String) :
    ((initProviders cfg so od).smAdapter).isSome
        = keyTruthy cfg.speechmatics ∧
    ((initProviders cfg so od).dgAdapter).isSome = keyTruthy cfg.deepgram ∧
    (initProviders cfg so od).events.filter (isApiKeyErr "speechmatics")
      = (if keyTruthy cfg.speechmatics then []
         else [ClientEvent.error (some "speechmatics")
                 ErrMsg.apiKeyNotProvided]) ∧
    (initProviders cfg so od).events.filter (isApiKeyErr "deepgram")
      = (if keyTruthy cfg.deepgram then []
         else [ClientEvent.error (some "deepgram")
                 ErrMsg.apiKeyNotProvided]) := by
  by_cases hs : keyTruthy cfg.speechmatics <;>
    by_cases hd : keyTruthy cfg.deepgram <;>
      rcases so with _ | e <;> rcases od with _ | e2 <;>
        simp [initProviders, smInitPart, dgInitPart, smConnect, dgConnect,
          isApiKeyErr, hs, hd, List.filter]

/-- Claim C5, counterexample: a segment whose speaker token is the
string Sx (starts with S, remainder not an integer) makes the int
conversion raise; the exception aborts the handler, so the segment
yields no event at all — the value is neither converted nor passed
through. -/
theorem sm_speaker_nonconforming_counterexample :
    smFinalRun (some [SmSegment.mk (some "hi") (some 1) (some 2) none
        (some (PyVal.str "Sx")) none]) = [] ∧
    smFinalSegEvent (SmSegment.mk (some "hi") (some 1) (some 2) none
        (some (PyVal.str "Sx")) none) = Except.error "ValueError" := by
  exact ⟨by decide, rfl⟩

/-- Helper for the speaker claims: a successful speaker conversion of a
non-null token yields the final-segment transcript with that speaker
attached. -/
theorem smFinalSegEvent_ok_of_convert (seg : SmSegment) (v sv : PyVal)
    (hsp : seg.speaker_id = some v) (hv : v ≠ PyVal.noneV)
    (hcv : smConvertSpeaker v = Except.ok sv) :
    ∃ t, smFinalSegEvent seg = Except.ok t ∧ t.speaker = some sv := by
  refine ⟨{ provider := "speechmatics", text := seg.text.getD ""
            is_final := true, start_ms := seg.start_time.getD 0 * 1000
            end_ms := seg.end_time.getD 0 * 1000
            confidence := some (seg.confidence.getD 0)
            speaker := some sv }, ?_, rfl⟩
  simp [smFinalSegEvent, hsp, hv, hcv]

/-- Claim C5, amended: a string speaker token whose first character is
S and whose remainder parses as a Python int yields the 0-based integer
value minus one; a string token not starting with S, and a non-string
token, are passed through unchanged; a JSON-null token adds no speaker
field; but a token starting with S whose remainder does not parse
raises ValueError, aborting the handler for that message (the segment
is dropped).  The partial-segment handler resolves speakers exactly
like the final-segment handler. -/
theorem sm_speaker_normalization :
    (∀ (seg : SmSegment) (s : String) (rest : List Char) (n : Int),
       seg.speaker_id = some (PyVal.str s) → s.data = 'S' :: rest →
       pyIntParse rest = some n →
       ∃ t, smFinalSegEvent seg = Except.ok t ∧
         t.speaker = some (PyVal.intV (n - 1))) ∧
    (∀ (seg : SmSegment) (s : String),
       seg.speaker_id = some (PyVal.str s) → s.data.head? ≠ some 'S' →
       ∃ t, smFinalSegEvent seg = Except.ok t ∧
         t.speaker = some (PyVal.str s)) ∧
    (∀ (seg : SmSegment) (k : Int),
       seg.speaker_id = some (PyVal.intV k) →
       ∃ t, smFinalSegEvent seg = Except.ok t ∧
         t.speaker = some (PyVal.intV k)) ∧
    (∀ seg : SmSegment,
       seg.speaker_id = some PyVal.noneV →
       ∃ t, smFinalSegEvent seg = Except.ok t ∧ t.speaker = none) ∧
    (∀ (seg : SmSegment) (s : String) (rest : List Char),
       seg.speaker_id = some (PyVal.str s) → s.data = 'S' :: rest →
       pyIntParse rest = none →
       smFinalSegEvent seg = Except.error "ValueError") ∧
    (∀ seg : SmSegment,
       (smPartialSegEvent seg).toOption.map Transcript.speaker =
         (smFinalSegEvent seg).toOption.map Transcript.speaker) := by
  refine ⟨?_, ?_, ?_, ?_, ?_, ?_⟩
  · intro seg s rest n hsp hd hp
    have hcv : smConvertSpeaker (PyVal.str s)
        = Except.ok (PyVal.intV (n - 1)) := by
      simp [smConvertSpeaker, hd, hp]
    exact smFinalSegEvent_ok_of_convert seg _ _ hsp (by simp) hcv
  · intro seg s hsp hhd
    have hcv : smConvertSpeaker (PyVal.str s) = Except.ok (PyVal.str s) := by
      rcases hd : s.data with _ | ⟨c, rest⟩
      · simp [smConvertSpeaker, hd]
      · have hc : c ≠ 'S' := by
          intro hc0
          rw [hd, hc0] at hhd
          simp at hhd
        simp [smConvertSpeaker, hd, hc]
    exact smFinalSegEvent_ok_of_convert seg _ _ hsp (by simp) hcv
  · intro seg k hsp
    exact smFinalSegEvent_ok_of_convert seg _ _ hsp (by simp)
      (by simp [smConvertSpeaker])
  · intro seg hsp
    refine ⟨{ provider := "speechmatics", text := seg.text.getD ""
              is_final := true, start_ms := seg.start_time.getD 0 * 1000
              end_ms := seg.end_time.getD 0 * 1000
              confidence := some (seg.confidence.getD 0)
              speaker := none }, ?_, rfl⟩
    simp [smFinalSegEvent, hsp]
  · intro seg s rest hsp hd hp
    have hcv : smConvertSpeaker (PyVal.str s) = Except.error "ValueError" := by
      simp [smConvertSpeaker, hd, hp]
    simp [smFinalSegEvent, hsp, hcv]
  · intro seg
    rcases hsp : seg.speaker_id with _ | v
    · simp [smPartialSegEvent, smFinalSegEvent, hsp, Except.toOption]
    · by_cases hv : v = PyVal.noneV
      · simp [smPartialSegEvent, smFinalSegEvent, hsp, hv, Except.toOption]
      · rcases hcv : smConvertSpeaker v with e | sv
        · simp [smPartialSegEvent, smFinalSegEvent, hsp, hv, hcv,
            Except.toOption]
        · simp [smPartialSegEvent, smFinalSegEvent, hsp, hv, hcv,
            Except.toOption]

/-- Witness for the amended claim C5: token S3 yields speaker 2, token
speaker_a passes through, and an integer token passes through. -/
theorem sm_speaker_normalization_witness :
    (∃ t, smFinalSegEvent (SmSegment.mk (some "hi") (some 0) (some 1) none
        (some (PyVal.str "S3")) none) = Except.ok t ∧
      t.speaker = some (PyVal.intV (3 - 1))) ∧
    (∃ t, smFinalSegEvent (SmSegment.mk (some "hi") (some 0) (some 1) none
        (some (PyVal.str "guest")) none) = Except.ok t ∧
      t.speaker = some (PyVal.str "guest")) ∧
    (∃ t, smFinalSegEvent (SmSegment.mk (some "hi") (some 0) (some 1) none
        (some (PyVal.intV 7)) none) = Except.ok t ∧
      t.speaker = some (PyVal.intV 7)) :=
  ⟨sm_speaker_normalization.1
     (SmSegment.mk (some "hi") (some 0) (some 1) none
       (some (PyVal.str "S3")) none) "S3" ['3'] 3 rfl rfl (by decide),
   sm_speaker_normalization.2.1
     (SmSegment.mk (some "hi") (some 0) (some 1) none
       (some (PyVal.str "guest")) none) "guest" rfl (by decide),
   sm_speaker_normalization.2.2.1
     (SmSegment.mk (some "hi") (some 0) (some 1) none
       (some (PyVal.intV 7)) none) 7 rfl⟩

/-- Claim C6: for a Deepgram utterance with non-empty text, the
utterance-level speaker is used when present; otherwise, when some word
carries a speaker tag, the emitted speaker is a most frequent word
speaker whose first occurrence precedes that of every other speaker of
equal frequency; with no speaker information the field is omitted. -/
theorem dg_speaker_attribution (r : DgResult) (alt : DgAlternative)
    (h1 : r.alternatives.head? = some alt) (h2 : alt.transcript ≠ "") :
    ∃ t, dgProcessResp (DgMsg.result r) = [ClientEvent.transcript t] ∧
      (∀ k, alt.speaker = some k → t.speaker = some (PyVal.intV k)) ∧
      (alt.speaker = none → wordSpeakers (alt.words.getD []) = [] →
        t.speaker = none) ∧
      (alt.speaker = none →
        ∀ sp, sp = wordSpeakers (alt.words.getD []) → sp ≠ [] →
        ∃ m, t.speaker = some (PyVal.intV m) ∧ m ∈ sp ∧
          (∀ k ∈ sp, sp.count k ≤ sp.count m) ∧
          (∀ k ∈ sp, sp.count k = sp.count m →
            firstIdx sp m ≤ firstIdx sp k)) := by
  refine ⟨_, dgProcessResp_result_eq r alt h1 h2, ?_, ?_, ?_⟩
  · intro k hk
    simp [dgSpeakerField, hk]
  · intro hns hemp
    rcases hw : alt.words with _ | ws
    · simp [dgSpeakerField, hns, hw]
    · rw [hw] at hemp
      simp only [Option.getD_some] at hemp
      by_cases hwe : ws.isEmpty
      · simp [dgSpeakerField, hns, hw, hwe]
      · simp [dgSpeakerField, hns, hw, hwe, hemp]
  · intro hns sp hspdef hne
    rcases hw : alt.words with _ | ws
    · rw [hw] at hspdef
      simp [wordSpeakers] at hspdef
      exact absurd hspdef hne
    · rw [hw] at hspdef
      simp only [Option.getD_some] at hspdef
      subst hspdef
      have hws_ne : ws ≠ [] := by
        intro hws
        rw [hws] at hne
        simp [wordSpeakers] at hne
      have hwe : ws.isEmpty = false := by
        simpa [List.isEmpty_iff] using hws_ne
      have hspe : (wordSpeakers ws).isEmpty = false := by
        simpa [List.isEmpty_iff] using hne
      rcases mostCommon_isSome hne with ⟨m, hm⟩
      have hspec := mostCommon_spec (wordSpeakers ws) m hm
      refine ⟨m, ?_, hspec.1, hspec.2.1, hspec.2.2⟩
      simp [dgSpeakerField, hns, hw, hwe, hspe, hm]

/-- Witness for claim C6: word speakers 1, 1, 2 with no utterance-level
speaker yield speaker 1. -/
theorem dg_speaker_attribution_witness :
    (∃ t, dgProcessResp (DgMsg.result (DgResult.mk
        [DgAlternative.mk "hello" none none
          (some [DgWord.mk (some 1), DgWord.mk (some 1), DgWord.mk (some 2)])]
        (some false) none none)) = [ClientEvent.transcript t] ∧
      (∀ k, (DgAlternative.mk "hello" none none
          (some [DgWord.mk (some 1), DgWord.mk (some 1),
            DgWord.mk (some 2)])).speaker = some k →
        t.speaker = some (PyVal.intV k)) ∧
      ((DgAlternative.mk "hello" none none
          (some [DgWord.mk (some 1), DgWord.mk (some 1),
            DgWord.mk (some 2)])).speaker = none →
        wordSpeakers ((DgAlternative.mk "hello" none none
          (some [DgWord.mk (some 1), DgWord.mk (some 1),
            DgWord.mk (some 2)])).words.getD []) = [] → t.speaker = none) ∧
      ((DgAlternative.mk "hello" none none
          (some [DgWord.mk (some 1), DgWord.mk (some 1),
            DgWord.mk (some 2)])).speaker = none →
        ∀ sp, sp = wordSpeakers ((DgAlternative.mk "hello" none none
          (some [DgWord.mk (some 1), DgWord.mk (some 1),
            DgWord.mk (some 2)])).words.getD []) → sp ≠ [] →
        ∃ m, t.speaker = some (PyVal.intV m) ∧ m ∈ sp ∧
          (∀ k ∈ sp, sp.count k ≤ sp.count m) ∧
          (∀ k ∈ sp, sp.count k = sp.count m →
            firstIdx sp m ≤ firstIdx sp k))) ∧
    mostCommon [1, 1, 2] = some 1 :=
  ⟨dg_speaker_attribution
     (DgResult.mk
       [DgAlternative.mk "hello" none none
         (some [DgWord.mk (some 1), DgWord.mk (some 1), DgWord.mk (some 2)])]
       (some false) none none)
     (DgAlternative.mk "hello" none none
       (some [DgWord.mk (some 1), DgWord.mk (some 1), DgWord.mk (some 2)]))
     rfl (by decide),
   by decide⟩

/-- Claim C1: every adapter-local failure is absorbed at the adapter
boundary.  Connect, send and receive failures each produce exactly one
provider-attributed error event and a normal return (the operations are
total functions of the failure oracle); a malformed vendor payload and
a missing segments key are dropped without an event; a vendor-initiated
close of the Deepgram socket ends the listen loop silently; and during
audio fan-out each provider send task is independent of the other
provider oracle, a connected adapter receiving its frame regardless of
the sibling outcome. -/
theorem adapter_failures_contained :
    (∀ e, dgConnect (some e) = (⟨false, false, false⟩,
       [ClientEvent.error (some "deepgram") (ErrMsg.connectionFailed e)])) ∧
    (∀ e, smConnect (some e) = (⟨true, false⟩,
       [ClientEvent.error (some "speechmatics")
         (ErrMsg.connectionFailed e)])) ∧
    (∀ (st : DgState) e, (dgSendAudio st (some e)).events =
       if st.hasWs && st.is_connected then
         [ClientEvent.error (some "deepgram") (ErrMsg.audioTransmission e)]
       else []) ∧
    (∀ (st : SmState) e, (smSendAudio st (some e)).events =
       if st.hasClient && st.is_connected then
         [ClientEvent.error (some "speechmatics")
           (ErrMsg.audioTransmission e)]
       else []) ∧
    (∀ e, dgListenIter (DgRecv.recvError e) =
       [ClientEvent.error (some "deepgram") (ErrMsg.responseProcessing e)]) ∧
    (dgListenIter DgRecv.connClosed = []) ∧
    (dgProcessResp DgMsg.malformed = []) ∧
    (smPartialRun none = []) ∧
    (smFinalRun none = []) ∧
    (∀ (conn : ConnState) (o o2 od : Option String),
       (fanout conn o od).dgRes = (fanout conn o2 od).dgRes) ∧
    (∀ (conn : ConnState) (so o o2 : Option String),
       (fanout conn so o).smRes = (fanout conn so o2).smRes) ∧
    (∀ st : DgState, (st.hasWs && st.is_connected) = true →
       dgSendAudio st none = ⟨[], true⟩) ∧
    (∀ st : SmState, (st.hasClient && st.is_connected) = true →
       smSendAudio st none = ⟨[], true⟩) := by
  refine ⟨fun e => rfl, fun e => rfl, ?_, ?_, fun e => rfl, rfl, rfl, rfl,
    rfl, fun conn o o2 od => rfl, fun conn so o o2 => rfl, ?_, ?_⟩
  · intro st e
    unfold dgSendAudio
    by_cases h : st.hasWs && st.is_connected <;> simp [h]
  · intro st e
    unfold smSendAudio
    by_cases h : st.hasClient && st.is_connected <;> simp [h]
  · intro st h
    simp [dgSendAudio, h]
  · intro st h
    simp [smSendAudio, h]

/-- Witness for claim C1: a connected adapter of either provider
delivers the frame when its own send succeeds. -/
theorem adapter_failures_contained_witness :
    dgSendAudio ⟨true, false, true⟩ none = ⟨[], true⟩ ∧
    smSendAudio ⟨true, true⟩ none = ⟨[], true⟩ := by
  obtain ⟨-, -, -, -, -, -, -, -, -, -, -, h12, h13⟩ :=
    adapter_failures_contained
  exact ⟨h12 ⟨true, false, true⟩ rfl, h13 ⟨true, true⟩ rfl⟩

end STTCompare
